import Mathlib

/-!
Verification development for the 3D-print storefront application (`app.py`).

The application is a small web storefront with an admin panel backed by a
SQL store with two tables, `products` and `messages`.  This file embeds the
data model and the request handlers as pure Lean functions over explicit
store values, and proves the specified properties about them.

Modelling conventions:
* form/query parameters arrive as `Option String` (a missing field is `none`,
  mirroring `request.form.get` returning `None`);
* the SQL tables are lists of records together with the AUTOINCREMENT
  sequence counter; each handler is a function from the store (and the
  session's admin flag, where the handler is gated) to the new store and the
  produced response;
* lowercasing folds ASCII letters only (SQLite's `LOWER` folds only ASCII;
  the queries exercised by the specification are ASCII).
-/

/-- Python `str.strip()` whitespace test, on the ASCII whitespace characters. -/
def isPySpace (c : Char) : Bool :=
  c == ' ' || c == '\t' || c == '\n' || c == '\r' || c.toNat == 11 || c.toNat == 12

/-- Python `s.strip()`: drop whitespace from both ends. -/
def pyStrip (s : String) : String :=
  ⟨((s.data.dropWhile isPySpace).reverse.dropWhile isPySpace).reverse⟩

/-- ASCII-only lowercase of one character. -/
def asciiLowerChar (c : Char) : Char :=
  if 'A' ≤ c && c ≤ 'Z' then Char.ofNat (c.toNat + 32) else c

/-- ASCII-only lowercase of a string: models SQLite `LOWER` (which folds only
ASCII letters) and Python `str.lower()` on ASCII input. -/
def asciiLower (s : String) : String :=
  ⟨s.data.map asciiLowerChar⟩

/-- Python `(x or "")` applied to an optional form value. -/
def orEmpty (o : Option String) : String :=
  o.getD ""

/-- Python `str(value)` on an optional string: `str(None)` is `"None"`. -/
def pyStr (o : Option String) : String :=
  match o with
  | none => "None"
  | some s => s

/-- Decimal digits of a Python integer literal after the first digit: plain
digits, with single underscores allowed between digits. -/
def pyDigitsRest : List Char → Nat → Option Nat
  | [], acc => some acc
  | '_' :: c :: cs, acc =>
      if c.isDigit then pyDigitsRest cs (acc * 10 + (c.toNat - 48)) else none
  | ['_'], _ => none
  | c :: cs, acc =>
      if c.isDigit then pyDigitsRest cs (acc * 10 + (c.toNat - 48)) else none

/-- A nonempty digit sequence (first character must be a digit). -/
def pyDigits : List Char → Option Nat
  | [] => none
  | c :: cs => if c.isDigit then pyDigitsRest cs (c.toNat - 48) else none

/-- Python `int(s)` on an already-stripped ASCII string: optional sign followed
by a nonempty digit sequence; anything else raises (here: `none`). -/
def pyParseInt (s : String) : Option Int :=
  match s.data with
  | '+' :: rest => (pyDigits rest).map (fun n => (n : Int))
  | '-' :: rest => (pyDigits rest).map (fun n => -(n : Int))
  | rest => (pyDigits rest).map (fun n => (n : Int))

/-- Embeds `safe_int(value, default, minv, maxv)` from `app.py`: `int(str(value).strip())`,
default on parse failure, then clamp below by `minv` and above by `maxv` when
those are given. -/
def safe_int (value : Option String) (default : Int) (minv maxv : Option Int) : Int :=
  let v := match pyParseInt (pyStrip (pyStr value)) with
    | some n => n
    | none => default
  let v := match minv with
    | some m => max m v
    | none => v
  match maxv with
  | some m => min m v
  | none => v

/-- A row of the `products` table. -/
structure Product where
  id : Int
  name : String
  category : String
  material : String
  price : Int
  stock : Int
  lead_time_days : Int
  photo_url : String
  stl_url : String
  created_at : String
deriving DecidableEq, Repr

/-- The `products` table: rows in insertion order plus the AUTOINCREMENT
sequence (the largest id ever assigned; ids start at 1 and are never reused). -/
structure ProductStore where
  rows : List Product
  seq : Int
deriving DecidableEq, Repr

/-- A row of the `messages` table (`is_read` is stored as 0/1, modelled as `Bool`). -/
structure Message where
  id : Int
  name : String
  email : String
  message : String
  is_read : Bool
  created_at : String
deriving DecidableEq, Repr

/-- The `messages` table with its AUTOINCREMENT sequence. -/
structure MessageStore where
  rows : List Message
  seq : Int
deriving DecidableEq, Repr

/-- SQL `LIKE` pattern matching (`%` matches any run, `_` any one character);
both sides are already lowercased by the caller, so characters compare by
equality.  Matching is against the whole string. -/
def likeMatch : List Char → List Char → Bool
  | [], s => s.isEmpty
  | p :: ps, s =>
      if p = '%' then s.tails.any (fun t => likeMatch ps t)
      else match s with
        | [] => false
        | c :: s2 => (p = '_' || p == c) && likeMatch ps s2

/-- Ordering used by `ORDER BY id DESC`. -/
def prodGe (a b : Product) : Prop :=
  b.id ≤ a.id

instance : DecidableRel prodGe :=
  fun a b => inferInstanceAs (Decidable (b.id ≤ a.id))

instance : IsTotal Product prodGe :=
  ⟨fun a b => le_total b.id a.id⟩

instance : IsTrans Product prodGe :=
  ⟨fun _ _ _ h1 h2 => le_trans h2 h1⟩

/-- The `ORDER BY id DESC` ordering applied to a row list. -/
def sortByIdDesc (l : List Product) : List Product :=
  List.insertionSort prodGe l

/-- The `WHERE` clause built by `fetch_products` for already-normalised
filter values: `LOWER(name) LIKE '%q%'` when `q` is nonempty, and exact
category/material equality when those are nonempty. -/
def productMatches (q cat mat : String) (p : Product) : Bool :=
  (q == "" || likeMatch ('%' :: (q.data ++ ['%'])) (asciiLower p.name).data)
    && (cat == "" || p.category == cat)
    && (mat == "" || p.material == mat)

/-- Embeds `fetch_products(q, cat, mat)` from `app.py`: strip the filters, lowercase
the query, apply the ANDed `WHERE` clause, and order by id descending. -/
def fetch_products (st : ProductStore) (q cat mat : String) : List Product :=
  sortByIdDesc (st.rows.filter
    (productMatches (asciiLower (pyStrip q)) (pyStrip cat) (pyStrip mat)))

/-- Embeds `fetch_products()` called with no arguments: the Python defaults are
`q=""`, `cat=""`, `mat=""`. -/
def fetch_products_noargs (st : ProductStore) : List Product :=
  fetch_products st "" "" ""

/-- Embeds `fetch_product(pid)`: `SELECT * FROM products WHERE id=?` with `fetchone`. -/
def fetch_product (st : ProductStore) (pid : Int) : Option Product :=
  st.rows.find? (fun p => p.id == pid)

/-- Embeds `count_unread_messages()`: `SELECT COUNT(*) FROM messages WHERE is_read=0`. -/
def count_unread_messages (st : MessageStore) : Nat :=
  (st.rows.filter (fun m => !m.is_read)).length

/-- UTF-8 encoding of one character, as byte values below 256. -/
def utf8Encode (c : Char) : List Nat :=
  if c.toNat < 128 then [c.toNat]
  else if c.toNat < 2048 then [192 + c.toNat / 64, 128 + c.toNat % 64]
  else if c.toNat < 65536 then
    [224 + c.toNat / 4096, 128 + (c.toNat / 64) % 64, 128 + c.toNat % 64]
  else
    [240 + c.toNat / 262144, 128 + (c.toNat / 4096) % 64,
     128 + (c.toNat / 64) % 64, 128 + c.toNat % 64]

/-- UTF-8 byte sequence of a string. -/
def utf8Bytes (s : String) : List Nat :=
  s.data.foldr (fun c acc => utf8Encode c ++ acc) []

/-- Bytes left un-escaped by Python `urllib.parse.quote` with its default
`safe='/'`: ASCII letters, digits, `_`, `.`, `-`, `~` and `/`. -/
def isSafeByte (b : Nat) : Bool :=
  (65 ≤ b && b ≤ 90) || (97 ≤ b && b ≤ 122) || (48 ≤ b && b ≤ 57)
    || b == 95 || b == 46 || b == 45 || b == 126 || b == 47

/-- Uppercase hexadecimal digit for a value below 16. -/
def hexDigit (n : Nat) : Char :=
  if n < 10 then Char.ofNat (48 + n) else Char.ofNat (55 + n)

/-- Percent-encode a byte sequence (`urllib.parse.quote` after UTF-8 encoding). -/
def quoteBytes : List Nat → List Char
  | [] => []
  | b :: bs =>
      if isSafeByte b then Char.ofNat b :: quoteBytes bs
      else '%' :: hexDigit (b / 16) :: hexDigit (b % 16) :: quoteBytes bs

/-- Embeds `urllib.parse.quote(s)`: UTF-8 encode, then percent-encode unsafe bytes. -/
def quote (s : String) : String :=
  ⟨quoteBytes (utf8Bytes s)⟩

/-- Value of one hexadecimal digit character, if it is one. -/
def hexVal (c : Char) : Option Nat :=
  if '0' ≤ c && c ≤ '9' then some (c.toNat - 48)
  else if 'A' ≤ c && c ≤ 'F' then some (c.toNat - 55)
  else if 'a' ≤ c && c ≤ 'f' then some (c.toNat - 87)
  else none

/-- Percent-decoding to a byte sequence: `%XX` becomes the byte `XX`, any
other character contributes its UTF-8 bytes.  Used to state what the encoded
`text` parameter decodes to. -/
def unquoteBytes : List Char → List Nat
  | [] => []
  | c :: h1 :: h2 :: rest =>
      if c = '%' then
        match hexVal h1, hexVal h2 with
        | some a, some b => (16 * a + b) :: unquoteBytes rest
        | _, _ => utf8Encode c ++ unquoteBytes (h1 :: h2 :: rest)
      else utf8Encode c ++ unquoteBytes (h1 :: h2 :: rest)
  | c :: rest => utf8Encode c ++ unquoteBytes rest

/-- The fixed Turkish order template interpolated by `whatsapp_buy_link`. -/
def orderText (p : Product) : String :=
  "Merhaba, sipariş vermek istiyorum.\n\n"
    ++ "Ürün: " ++ p.name ++ "\n"
    ++ "Kategori: " ++ p.category ++ "\n"
    ++ "Malzeme: " ++ p.material ++ "\n"
    ++ "Fiyat: " ++ toString p.price ++ " TL\n"
    ++ "Stok: " ++ toString p.stock ++ "\n"
    ++ "Üretim süresi: " ++ toString p.lead_time_days ++ " gün\n"
    ++ "Ürün ID: #" ++ toString p.id ++ "\n\n"
    ++ "Adet: 1\n"
    ++ "Renk/Not: "

/-- Embeds `whatsapp_buy_link(product)` from `app.py`, with the configured
`WHATSAPP_NUMBER` passed explicitly: empty/blank number gives `""`, otherwise
`https://wa.me/<number>?text=<encoded template>`. -/
def whatsapp_buy_link (number : String) (p : Product) : String :=
  let num := pyStrip number
  if num = "" then ""
  else "https://wa.me/" ++ num ++ "?text=" ++ quote (orderText p)

/-- Embeds `get_admin_pass()`: `os.environ.get("ADMIN_PASS", "")` over an explicit
environment. -/
def get_admin_pass (env : String → Option String) : String :=
  (env "ADMIN_PASS").getD ""

/-- Embeds `login_post` from `app.py`, reduced to whether the admin session flag is
set: the stripped username must equal the constant `"admin"` and the
(unstripped) password must equal the configured `ADMIN_PASS` value. -/
def login_post (usernameF passwordF : Option String) (admin_pass : String) : Bool :=
  pyStrip (orEmpty usernameF) == "admin" && orEmpty passwordF == admin_pass

/-- Responses a handler can produce: a redirect to a route, or a rendered page
(identified by its title). -/
inductive HResponse where
  | redirect (target : String)
  | page (title : String)
deriving DecidableEq, Repr

/-- Embeds `contact_send` (POST `/contact/send`): all three stripped fields must be
nonempty, else re-render with an inline error and write nothing; otherwise
insert one message with `is_read = 0` and the server timestamp. -/
def contact_send (st : MessageStore) (nameF emailF msgF : Option String)
    (now : String) : MessageStore × HResponse :=
  let name := pyStrip (orEmpty nameF)
  let email := pyStrip (orEmpty emailF)
  let msg := pyStrip (orEmpty msgF)
  if name ≠ "" ∧ email ≠ "" ∧ msg ≠ "" then
    ({ rows := st.rows ++ [⟨st.seq + 1, name, email, msg, false, now⟩],
       seq := st.seq + 1 }, .page "Gönderildi")
  else
    (st, .page "Hata")

/-- The form fields accepted by the admin add/edit product handlers. -/
structure ProductForm where
  name : Option String
  category : Option String
  material : Option String
  price : Option String
  stock : Option String
  lead_time_days : Option String
  photo_url : Option String
  stl_url : Option String
deriving Repr

/-- The store effect of `admin_add` once past the auth gate: coerce the
numeric fields, require name/category/material nonempty after stripping, and
insert a row with a fresh id. -/
def admin_add_db (st : ProductStore) (f : ProductForm) (now : String) : ProductStore :=
  let name := pyStrip (orEmpty f.name)
  let category := pyStrip (orEmpty f.category)
  let material := pyStrip (orEmpty f.material)
  let price := safe_int f.price 0 (some 0) none
  let stock := safe_int f.stock 0 (some 0) none
  let lead := safe_int f.lead_time_days 1 (some 0) none
  let photo_url := pyStrip (orEmpty f.photo_url)
  let stl_url := pyStrip (orEmpty f.stl_url)
  if name ≠ "" ∧ category ≠ "" ∧ material ≠ "" then
    { rows := st.rows ++
        [⟨st.seq + 1, name, category, material, price, stock, lead, photo_url, stl_url, now⟩],
      seq := st.seq + 1 }
  else st

/-- The store effect of `admin_delete` once past the auth gate:
`DELETE FROM products WHERE id=?` with the coerced form id. -/
def admin_delete_db (st : ProductStore) (idF : Option String) : ProductStore :=
  { st with rows := st.rows.filter (fun p => !(p.id == safe_int idF 0 (some 0) none)) }

/-- The overwrite `admin_edit_post` applies to the matched row: every mutable
field is replaced, `id` and `created_at` are not in the `SET` list. -/
def overwriteFields (f : ProductForm) (p : Product) : Product :=
  { p with
      name := pyStrip (orEmpty f.name)
      category := pyStrip (orEmpty f.category)
      material := pyStrip (orEmpty f.material)
      price := safe_int f.price 0 (some 0) none
      stock := safe_int f.stock 0 (some 0) none
      lead_time_days := safe_int f.lead_time_days 1 (some 0) none
      photo_url := pyStrip (orEmpty f.photo_url)
      stl_url := pyStrip (orEmpty f.stl_url) }

/-- The store effect and response of `admin_edit_post` once past the auth
gate: redirect back if the id does not exist, re-show the edit form (and write
nothing) if a required field strips to empty, else `UPDATE ... WHERE id=?`. -/
def admin_edit_post_db (st : ProductStore) (pid : Int) (f : ProductForm) :
    ProductStore × HResponse :=
  if (fetch_product st pid).isNone then
    (st, .redirect "/admin/products")
  else if pyStrip (orEmpty f.name) ≠ "" ∧ pyStrip (orEmpty f.category) ≠ ""
      ∧ pyStrip (orEmpty f.material) ≠ "" then
    ({ st with rows := st.rows.map (fun p => if p.id == pid then overwriteFields f p else p) },
     .redirect "/admin/products")
  else
    (st, .redirect ("/admin/edit/" ++ toString pid))

/-- The store effect of `admin_message_read` once past the auth gate:
`UPDATE messages SET is_read=1 WHERE id=?` with the coerced form id. -/
def admin_message_read_db (st : MessageStore) (idF : Option String) : MessageStore :=
  { st with rows := st.rows.map (fun m =>
      if m.id == safe_int idF 0 (some 0) none then { m with is_read := true } else m) }

/-- The store effect of `admin_message_delete` once past the auth gate:
`DELETE FROM messages WHERE id=?` with the coerced form id. -/
def admin_message_delete_db (st : MessageStore) (idF : Option String) : MessageStore :=
  { st with rows := st.rows.filter (fun m => !(m.id == safe_int idF 0 (some 0) none)) }

/-- Embeds `require_admin()` from `app.py`: a redirect to `/login` when the session
flag is not set, `None` otherwise. -/
def require_admin (isAdmin : Bool) : Option HResponse :=
  if !isAdmin then some (.redirect "/login") else none

/-- GET `/admin` (dashboard): gate, then render. -/
def admin_handler (isAdmin : Bool) : HResponse :=
  match require_admin isAdmin with
  | some r => r
  | none => .page "Panel"

/-- GET `/admin/products`: gate, then render; no store mutation. -/
def admin_products_handler (isAdmin : Bool) (st : ProductStore) : ProductStore × HResponse :=
  match require_admin isAdmin with
  | some r => (st, r)
  | none => (st, .page "Ürün Yönetimi")

/-- POST `/admin/add`: gate, then insert and redirect to the product list. -/
def admin_add_handler (isAdmin : Bool) (st : ProductStore) (f : ProductForm)
    (now : String) : ProductStore × HResponse :=
  match require_admin isAdmin with
  | some r => (st, r)
  | none => (admin_add_db st f now, .redirect "/admin/products")

/-- POST `/admin/delete`: gate, then delete and redirect to the product list. -/
def admin_delete_handler (isAdmin : Bool) (st : ProductStore) (idF : Option String) :
    ProductStore × HResponse :=
  match require_admin isAdmin with
  | some r => (st, r)
  | none => (admin_delete_db st idF, .redirect "/admin/products")

/-- GET `/admin/edit/<pid>`: gate, then render (found or not, the response is
the edit page); no store mutation. -/
def admin_edit_handler (isAdmin : Bool) (_st : ProductStore) (_pid : Int) : HResponse :=
  match require_admin isAdmin with
  | some r => r
  | none => .page "Düzenle"

/-- POST `/admin/edit/<pid>`: gate, then apply the edit. -/
def admin_edit_post_handler (isAdmin : Bool) (st : ProductStore) (pid : Int)
    (f : ProductForm) : ProductStore × HResponse :=
  match require_admin isAdmin with
  | some r => (st, r)
  | none => admin_edit_post_db st pid f

/-- GET `/admin/messages`: gate, then render; no store mutation. -/
def admin_messages_handler (isAdmin : Bool) (st : MessageStore) : MessageStore × HResponse :=
  match require_admin isAdmin with
  | some r => (st, r)
  | none => (st, .page "Mesajlar")

/-- POST `/admin/messages/read`: gate, then mark read and redirect. -/
def admin_message_read_handler (isAdmin : Bool) (st : MessageStore)
    (idF : Option String) : MessageStore × HResponse :=
  match require_admin isAdmin with
  | some r => (st, r)
  | none => (admin_message_read_db st idF, .redirect "/admin/messages")

/-- POST `/admin/messages/delete`: gate, then delete and redirect. -/
def admin_message_delete_handler (isAdmin : Bool) (st : MessageStore)
    (idF : Option String) : MessageStore × HResponse :=
  match require_admin isAdmin with
  | some r => (st, r)
  | none => (admin_message_delete_db st idF, .redirect "/admin/messages")

/-- The clamping stage exactly as the specification words it: clamp the value
to the optional `[min, max]` range.  Stated separately from `safe_int` so the
coercion claim can be checked as a refinement. -/
def specClamp (minv maxv : Option Int) (v : Int) : Int :=
  match maxv with
  | some hi => min hi (match minv with | some lo => max lo v | none => v)
  | none => match minv with | some lo => max lo v | none => v

/-- Wildcard-free query text: none of its characters is a SQL `LIKE`
wildcard. -/
def noWild (q : List Char) : Prop :=
  ∀ c ∈ q, c ≠ '%' ∧ c ≠ '_'

instance (q : List Char) : Decidable (noWild q) := by
  unfold noWild
  infer_instance

/-- Concrete product used to exercise the link builder. -/
def demoProduct : Product :=
  ⟨7, "Stand", "Aksesuar", "PLA", 100, 5, 1, "", "", "2024-05-01T10:00:00"⟩

/-- Concrete catalog row named as in the specification example. -/
def standRow : Product :=
  ⟨3, "Masa Üstü Telefon Standı (Ayarlı)", "Stand", "PLA", 159, 25, 1, "", "", "t0"⟩

/-- Concrete catalog row named as in the specification example. -/
def kabloRow : Product :=
  ⟨2, "Kablo Düzenleyici Klips Seti", "Organizasyon", "PETG", 129, 40, 1, "", "", "t0"⟩

/-- Concrete two-product catalog. -/
def demoCatalog : ProductStore :=
  ⟨[kabloRow, standRow], 3⟩

/-- Single-row catalog whose product name has no underscore. -/
def xyzRow : Product :=
  ⟨1, "xyz", "Stand", "PLA", 10, 1, 1, "", "", "t0"⟩

/-- Store holding only `xyzRow`. -/
def xyzStore : ProductStore :=
  ⟨[xyzRow], 1⟩

/-- Concrete unread message. -/
def demoMsg : Message :=
  ⟨1, "Ali", "ali@example.com", "merhaba", false, "t0"⟩

/-- Message store holding only `demoMsg`. -/
def demoMsgStore : MessageStore :=
  ⟨[demoMsg], 1⟩

/-- Concrete well-formed edit form. -/
def demoForm : ProductForm :=
  ⟨some "Yeni Ad", some "Stand", some "PETG", some "15", some "abc", some "-5",
   some "http://x/p.png", some ""⟩

/-! ### Helper lemmas -/

theorem char_toNat_lt (c : Char) : c.toNat < 1114112 := by
  have h := c.valid
  unfold UInt32.isValidChar Nat.isValidChar at h
  rcases h with h | ⟨_, h⟩ <;> simp [Char.toNat] <;> omega

theorem ofNat_toNat_small : ∀ n < 128, (Char.ofNat n).toNat = n := by decide

theorem utf8Encode_lt (c : Char) : ∀ b ∈ utf8Encode c, b < 256 := by
  have h := char_toNat_lt c
  intro b hb
  unfold utf8Encode at hb
  split at hb
  · simp at hb; omega
  · split at hb
    · simp at hb; rcases hb with hb | hb <;> omega
    · split at hb
      · simp at hb; rcases hb with hb | hb | hb <;> omega
      · simp at hb; rcases hb with hb | hb | hb | hb <;> omega

theorem utf8Bytes_lt (s : String) : ∀ b ∈ utf8Bytes s, b < 256 := by
  unfold utf8Bytes
  induction s.data with
  | nil => simp
  | cons c cs ih =>
      intro b hb
      simp only [List.foldr_cons, List.mem_append] at hb
      rcases hb with hb | hb
      · exact utf8Encode_lt c b hb
      · exact ih b hb

theorem isSafeByte_lt {b : Nat} (h : isSafeByte b = true) : b < 128 := by
  unfold isSafeByte at h
  simp only [Bool.or_eq_true, Bool.and_eq_true, decide_eq_true_eq, beq_iff_eq] at h
  omega

theorem isSafeByte_ne_pct {b : Nat} (h : isSafeByte b = true) : b ≠ 37 := by
  intro e
  subst e
  simp [isSafeByte] at h

theorem utf8Encode_ofNat {b : Nat} (h : b < 128) : utf8Encode (Char.ofNat b) = [b] := by
  unfold utf8Encode
  rw [ofNat_toNat_small b h]
  simp [h]

theorem ofNat_ne_pct {b : Nat} (hs : isSafeByte b = true) : Char.ofNat b ≠ '%' := by
  intro e
  have h1 : (Char.ofNat b).toNat = b := ofNat_toNat_small b (isSafeByte_lt hs)
  rw [e] at h1
  exact isSafeByte_ne_pct hs h1.symm

theorem hexVal_hexDigit : ∀ n < 16, hexVal (hexDigit n) = some n := by decide

theorem unquoteBytes_cons_ne {c : Char} (rest : List Char) (h : ¬c = '%') :
    unquoteBytes (c :: rest) = utf8Encode c ++ unquoteBytes rest := by
  match rest with
  | [] => rfl
  | [x] => rfl
  | x :: y :: t => simp [unquoteBytes, h]

theorem unquoteBytes_pct {h1 h2 : Char} {a b : Nat} (rest : List Char)
    (e1 : hexVal h1 = some a) (e2 : hexVal h2 = some b) :
    unquoteBytes ('%' :: h1 :: h2 :: rest) = (16 * a + b) :: unquoteBytes rest := by
  simp [unquoteBytes, e1, e2]

theorem unquote_quote : ∀ bs : List Nat, (∀ b ∈ bs, b < 256) →
    unquoteBytes (quoteBytes bs) = bs := by
  intro bs
  induction bs with
  | nil => intro _; rfl
  | cons b rest ih =>
      intro h256
      have hb : b < 256 := h256 b (by simp)
      have hrest : ∀ x ∈ rest, x < 256 := fun x hx => h256 x (by simp [hx])
      unfold quoteBytes
      by_cases hs : isSafeByte b = true
      · rw [if_pos hs, unquoteBytes_cons_ne _ (ofNat_ne_pct hs),
            utf8Encode_ofNat (isSafeByte_lt hs), ih hrest]
        rfl
      · rw [if_neg hs,
            unquoteBytes_pct _ (hexVal_hexDigit (b / 16) (by omega))
              (hexVal_hexDigit (b % 16) (by omega)),
            ih hrest]
        congr 1
        omega

theorem unquote_quote_str (s : String) :
    unquoteBytes (quote s).data = utf8Bytes s :=
  unquote_quote (utf8Bytes s) (utf8Bytes_lt s)

theorem likeMatch_pct (ps s : List Char) :
    (likeMatch ('%' :: ps) s = true) ↔ ∃ t, t <:+ s ∧ likeMatch ps t = true := by
  show ((if ('%' : Char) = '%' then s.tails.any (fun t => likeMatch ps t) else _) = true) ↔ _
  rw [if_pos rfl]
  simp [List.any_eq_true, List.mem_tails]

theorem likeMatch_pct_single (s : List Char) : likeMatch ['%'] s = true := by
  rw [likeMatch_pct]
  exact ⟨[], List.nil_suffix, rfl⟩

theorem likeMatch_lit (q : List Char) :
    noWild q → ∀ s, (likeMatch (q ++ ['%']) s = true ↔ q <+: s) := by
  induction q with
  | nil =>
      intro _ s
      simpa using likeMatch_pct_single s
  | cons c q ih =>
      intro hq s
      have hc := hq c (by simp)
      have hq2 : noWild q := fun x hx => hq x (by simp [hx])
      cases s with
      | nil =>
          simp [likeMatch, hc.1]
      | cons a s =>
          simp [likeMatch, hc.1, hc.2, ih hq2 s]

theorem likeMatch_contains (q s : List Char) (hq : noWild q) :
    (likeMatch ('%' :: (q ++ ['%'])) s = true) ↔ q <:+: s := by
  rw [likeMatch_pct]
  constructor
  · rintro ⟨t, hts, hm⟩
    exact List.infix_iff_prefix_suffix.mpr ⟨t, (likeMatch_lit q hq t).mp hm, hts⟩
  · intro h
    rcases List.infix_iff_prefix_suffix.mp h with ⟨t, hpt, hts⟩
    exact ⟨t, hts, (likeMatch_lit q hq t).mpr hpt⟩

theorem mem_sortByIdDesc (l : List Product) (p : Product) :
    p ∈ sortByIdDesc l ↔ p ∈ l :=
  List.mem_insertionSort prodGe

theorem pairwise_sortByIdDesc (l : List Product) :
    (sortByIdDesc l).Pairwise prodGe :=
  List.sorted_insertionSort prodGe l

theorem mem_fetch_products (st : ProductStore) (q cat mat : String) (p : Product) :
    p ∈ fetch_products st q cat mat ↔
      p ∈ st.rows ∧
        productMatches (asciiLower (pyStrip q)) (pyStrip cat) (pyStrip mat) p = true := by
  unfold fetch_products
  rw [mem_sortByIdDesc]
  simp [List.mem_filter]

theorem productMatches_iff (q cat mat : String) (p : Product) (hq : noWild q.data) :
    productMatches q cat mat p = true ↔
      (q = "" ∨ q.data <:+: (asciiLower p.name).data)
        ∧ (cat = "" ∨ p.category = cat)
        ∧ (mat = "" ∨ p.material = mat) := by
  unfold productMatches
  simp [likeMatch_contains _ _ hq, and_assoc]

theorem map_markRead_id (mid : Int) (l : List Message) (h : ∀ m ∈ l, m.id ≠ mid) :
    l.map (fun m => if m.id == mid then { m with is_read := true } else m) = l := by
  induction l with
  | nil => rfl
  | cons a t ih =>
      have ha : (a.id == mid) = false := by
        simp [h a (by simp)]
      simp only [List.map_cons, ha, Bool.false_eq_true, if_false]
      rw [ih (fun m hm => h m (by simp [hm]))]

theorem unread_filter_dec (mid : Int) (l : List Message) (m0 : Message)
    (hnd : (l.map Message.id).Nodup) (hmem : m0 ∈ l) (hid : m0.id = mid)
    (hunread : m0.is_read = false) :
    ((l.map (fun m => if m.id == mid then { m with is_read := true } else m)).filter
        (fun m => !m.is_read)).length + 1
      = (l.filter (fun m => !m.is_read)).length := by
  induction l with
  | nil => simp at hmem
  | cons a t ih =>
      rw [List.map_cons] at hnd
      rw [List.nodup_cons] at hnd
      rcases List.mem_cons.mp hmem with he | ht
      · subst he
        have ha : (m0.id == mid) = true := by simp [hid]
        have htid : ∀ m ∈ t, m.id ≠ mid := by
          intro m hm e
          apply hnd.1
          rw [hid, ← e]
          exact List.mem_map_of_mem Message.id hm
        simp only [List.map_cons, ha, if_true]
        rw [map_markRead_id mid t htid]
        simp [List.filter_cons, hunread]
      · have haid : a.id ≠ mid := by
          intro e
          have : m0.id ∈ t.map Message.id := List.mem_map_of_mem Message.id ht
          rw [hid] at this
          rw [e] at hnd
          exact hnd.1 this
        have ha : (a.id == mid) = false := by simp [haid]
        simp only [List.map_cons, ha, Bool.false_eq_true, if_false]
        rw [List.filter_cons, List.filter_cons]
        by_cases hr : (!a.is_read) = true
        · simp only [hr, if_true, List.length_cons]
          rw [ih hnd.2 ht]
        · simp only [hr, if_false]
          exact ih hnd.2 ht

theorem markRead_pointwise_idem (mid : Int) (m : Message) :
    (fun m => if m.id == mid then { m with is_read := true } else m)
        ((fun m => if m.id == mid then { m with is_read := true } else m) m)
      = (fun m => if m.id == mid then { m with is_read := true } else m) m := by
  by_cases h : (m.id == mid) = true
  · simp [h]
  · simp only at h
    simp [h]

theorem markRead_filter_le (mid : Int) (l : List Message) :
    ((l.map (fun m => if m.id == mid then { m with is_read := true } else m)).filter
        (fun m => !m.is_read)).length
      ≤ (l.filter (fun m => !m.is_read)).length := by
  induction l with
  | nil => simp
  | cons a t ih =>
      simp only [List.map_cons, List.filter_cons]
      by_cases h : (a.id == mid) = true
      · simp only [h, if_true]
        by_cases hr : (!a.is_read) = true
        · simp only [Bool.not_true, Bool.false_eq_true, if_false, hr, if_true]
          exact Nat.le_trans ih (Nat.le_succ _)
        · simp only [Bool.not_true, Bool.false_eq_true, if_false, hr]
          exact ih
      · simp only [h, Bool.false_eq_true, if_false]
        by_cases hr : (!a.is_read) = true
        · simp only [hr, if_true, List.length_cons]
          exact Nat.succ_le_succ ih
        · simp only [hr, if_false]
          exact ih

theorem contact_send_blank (st : MessageStore) (nF eF mF : Option String) (now : String)
    (h : pyStrip (orEmpty nF) = "" ∨ pyStrip (orEmpty eF) = "" ∨ pyStrip (orEmpty mF) = "") :
    contact_send st nF eF mF now = (st, .page "Hata") := by
  unfold contact_send
  rw [if_neg]
  rintro ⟨h1, h2, h3⟩
  rcases h with h | h | h
  exacts [h1 h, h2 h, h3 h]

theorem contact_send_ok (st : MessageStore) (nF eF mF : Option String) (now : String)
    (h1 : pyStrip (orEmpty nF) ≠ "") (h2 : pyStrip (orEmpty eF) ≠ "")
    (h3 : pyStrip (orEmpty mF) ≠ "") :
    contact_send st nF eF mF now
      = ({ rows := st.rows ++
            [⟨st.seq + 1, pyStrip (orEmpty nF), pyStrip (orEmpty eF), pyStrip (orEmpty mF),
              false, now⟩],
           seq := st.seq + 1 }, .page "Gönderildi") := by
  unfold contact_send
  rw [if_pos ⟨h1, h2, h3⟩]

/-! ### Claims -/

/-- Claim C1, amended: the login handler sets the admin session flag iff the
whitespace-stripped submitted username equals the constant `"admin"` and the
submitted password (not stripped) equals the configured `ADMIN_PASS` value,
by plain string equality; consequently, when the configured value is empty,
login succeeds exactly for an empty submitted password with username
`"admin"`, rather than never succeeding. -/
theorem login_post_iff : ∀ (uF pF : Option String) (pass : String),
    ((login_post uF pF pass = true) ↔
        (pyStrip (orEmpty uF) = "admin" ∧ orEmpty pF = pass))
    ∧ (pass = "" →
        ((login_post uF pF pass = true) ↔
            (pyStrip (orEmpty uF) = "admin" ∧ orEmpty pF = ""))) := by
  intro uF pF pass
  constructor
  · unfold login_post
    simp
  · intro h
    subst h
    unfold login_post
    simp

/-- Witness for `login_post_iff` at concrete inputs, discharging the
`pass = ""` hypothesis. -/
theorem login_post_iff_witness :
    (login_post (some "admin") (some "") "" = true) ↔
      (pyStrip (orEmpty (some "admin")) = "admin" ∧ orEmpty (some "") = "") :=
  (login_post_iff (some "admin") (some "") "").2 rfl

/-- Claim C1 counterexample: with the configured password empty, submitting
username `"admin"` with an empty password does set the admin flag, so "login
can never succeed when the configured value is empty" is false; moreover the
flag is not equivalent to plain (unstripped) equality of the submitted
username with `"admin"`. -/
theorem login_post_claim_cex :
    login_post (some "admin") (some "") "" = true
      ∧ ¬ ((login_post (some " admin ") (some "pw") "pw" = true) ↔
            ((" admin " : String) = "admin" ∧ ("pw" : String) = "pw")) := by
  constructor
  · decide
  · decide

/-- Claim C2: `safe_int` trims surrounding whitespace, attempts an integer
parse, substitutes the caller-specified default on parse failure, then clamps
to the optional `[min, max]` range; with default 0 and min 0, `"abc"` yields
0, `"-5"` yields 0 (clamped), and `"15"` yields 15. -/
theorem safe_int_spec : ∀ (v : Option String) (d : Int) (mn mx : Option Int),
    safe_int v d mn mx = specClamp mn mx ((pyParseInt (pyStrip (pyStr v))).getD d)
    ∧ safe_int (some "abc") 0 (some 0) none = 0
    ∧ safe_int (some "-5") 0 (some 0) none = 0
    ∧ safe_int (some "15") 0 (some 0) none = 15
    ∧ safe_int (some "  15 ") 0 (some 0) none = 15 := by
  intro v d mn mx
  refine ⟨?_, by decide, by decide, by decide, by decide⟩
  unfold safe_int specClamp
  cases pyParseInt (pyStrip (pyStr v)) <;> cases mn <;> cases mx <;> rfl

/-- Claim C7: the contact handler re-renders with an inline error and writes
nothing when any of the three stripped fields is blank; otherwise it appends
exactly one message with `is_read = false` and the server timestamp. -/
theorem contact_send_spec : ∀ (st : MessageStore) (nF eF mF : Option String) (now : String),
    ((pyStrip (orEmpty nF) = "" ∨ pyStrip (orEmpty eF) = "" ∨ pyStrip (orEmpty mF) = "") →
      contact_send st nF eF mF now = (st, .page "Hata"))
    ∧ (pyStrip (orEmpty nF) ≠ "" → pyStrip (orEmpty eF) ≠ "" → pyStrip (orEmpty mF) ≠ "" →
        contact_send st nF eF mF now
          = ({ rows := st.rows ++
                [⟨st.seq + 1, pyStrip (orEmpty nF), pyStrip (orEmpty eF),
                  pyStrip (orEmpty mF), false, now⟩],
               seq := st.seq + 1 }, .page "Gönderildi")) := by
  intro st nF eF mF now
  exact ⟨contact_send_blank st nF eF mF now, contact_send_ok st nF eF mF now⟩

/-- Witness for `contact_send_spec`: a blank email leaves the store unchanged;
three nonblank fields append one unread message. -/
theorem contact_send_spec_witness :
    contact_send demoMsgStore (some "Ali") (some " ") (some "merhaba") "t1"
        = (demoMsgStore, .page "Hata")
      ∧ contact_send demoMsgStore (some "Ali") (some "a@b.c") (some "merhaba") "t1"
          = ({ rows := demoMsgStore.rows ++
                [⟨demoMsgStore.seq + 1, pyStrip (orEmpty (some "Ali")),
                  pyStrip (orEmpty (some "a@b.c")), pyStrip (orEmpty (some "merhaba")),
                  false, "t1"⟩],
               seq := demoMsgStore.seq + 1 }, .page "Gönderildi") :=
  ⟨(contact_send_spec demoMsgStore (some "Ali") (some " ") (some "merhaba") "t1").1
      (Or.inr (Or.inl (by decide))),
   (contact_send_spec demoMsgStore (some "Ali") (some "a@b.c") (some "merhaba") "t1").2
      (by decide) (by decide) (by decide)⟩

/-- Claim C8: every admin-only handler, called without the admin session flag,
returns a redirect to `/login` (never an access-denied error page) and leaves
the stores untouched. -/
theorem admin_gate_redirects : ∀ (pst : ProductStore) (mst : MessageStore)
    (f : ProductForm) (now : String) (pid : Int) (idF : Option String),
    admin_handler false = .redirect "/login"
    ∧ admin_products_handler false pst = (pst, .redirect "/login")
    ∧ admin_add_handler false pst f now = (pst, .redirect "/login")
    ∧ admin_delete_handler false pst idF = (pst, .redirect "/login")
    ∧ admin_edit_handler false pst pid = .redirect "/login"
    ∧ admin_edit_post_handler false pst pid f = (pst, .redirect "/login")
    ∧ admin_messages_handler false mst = (mst, .redirect "/login")
    ∧ admin_message_read_handler false mst idF = (mst, .redirect "/login")
    ∧ admin_message_delete_handler false mst idF = (mst, .redirect "/login") := by
  intro pst mst f now pid idF
  exact ⟨rfl, rfl, rfl, rfl, rfl, rfl, rfl, rfl, rfl⟩

/-- Claim C3, amended: provided the (stripped, lowercased) query contains no
SQL `LIKE` wildcard (`%` or `_`), the listing contains exactly the stored
products whose ASCII-lowercased name contains the lowercased query as a
substring (no name condition when the query strips to empty), whose category
and material equal the respective nonempty stripped filters, all ANDed, and
the result is ordered by id descending.  A query containing a wildcard
instead matches per `LIKE`. -/
theorem fetch_products_spec : ∀ (st : ProductStore) (q cat mat : String) (p : Product),
    noWild (asciiLower (pyStrip q)).data →
    (p ∈ fetch_products st q cat mat ↔
        p ∈ st.rows
        ∧ (asciiLower (pyStrip q) = ""
            ∨ (asciiLower (pyStrip q)).data <:+: (asciiLower p.name).data)
        ∧ (pyStrip cat = "" ∨ p.category = pyStrip cat)
        ∧ (pyStrip mat = "" ∨ p.material = pyStrip mat))
    ∧ (fetch_products st q cat mat).Pairwise prodGe := by
  intro st q cat mat p hq
  constructor
  · rw [mem_fetch_products, productMatches_iff _ _ _ _ hq]
  · exact pairwise_sortByIdDesc _

/-- Witness for `fetch_products_spec`: on a concrete catalog the query
`"stand"` matches the product named "Masa Üstü Telefon Standı (Ayarlı)" and
not the one named "Kablo Düzenleyici Klips Seti". -/
theorem fetch_products_spec_witness :
    standRow ∈ fetch_products demoCatalog "stand" "" ""
      ∧ kabloRow ∉ fetch_products demoCatalog "stand" "" "" := by
  have h1 := fetch_products_spec demoCatalog "stand" "" "" standRow (by decide)
  have h2 := fetch_products_spec demoCatalog "stand" "" "" kabloRow (by decide)
  constructor
  · exact h1.1.mpr (by decide)
  · intro hm
    have hk := h2.1.mp hm
    revert hk
    decide

/-- Claim C3 counterexample: the underscore in a query is a `LIKE` wildcard,
so the query `"x_z"` selects the product named `"xyz"` even though that name
does not contain `"x_z"` as a substring — the claim's "contains exactly the
products whose name contains the query" fails as stated. -/
theorem fetch_products_claim_cex :
    xyzRow ∈ fetch_products xyzStore "x_z" "" ""
      ∧ ¬ (asciiLower (pyStrip "x_z")).data <:+: (asciiLower xyzRow.name).data := by
  constructor
  · decide
  · decide

/-- Claim C4: an empty or blank configured number yields an empty link;
otherwise the link is `https://wa.me/<number>?text=<encoded>` where the
encoded part percent-decodes to the fixed Turkish order template
interpolating the product's fields. -/
theorem whatsapp_buy_link_spec : ∀ (number : String) (p : Product),
    (pyStrip number = "" → whatsapp_buy_link number p = "")
    ∧ (pyStrip number ≠ "" →
        whatsapp_buy_link number p
          = "https://wa.me/" ++ pyStrip number ++ "?text=" ++ quote (orderText p))
    ∧ unquoteBytes (quote (orderText p)).data = utf8Bytes (orderText p) := by
  intro number p
  refine ⟨?_, ?_, unquote_quote_str (orderText p)⟩
  · intro h
    unfold whatsapp_buy_link
    simp [h]
  · intro h
    unfold whatsapp_buy_link
    simp [h]

set_option maxRecDepth 10000 in
set_option maxHeartbeats 1600000 in
/-- Witness for `whatsapp_buy_link_spec`: blank number gives `""`; for number
`"905551112233"` and the demo product the link starts with
`https://wa.me/905551112233?text=` and the percent-decoded text contains
"Ürün: Stand" and "Ürün ID: #7". -/
theorem whatsapp_buy_link_spec_witness :
    whatsapp_buy_link " " demoProduct = ""
      ∧ whatsapp_buy_link "905551112233" demoProduct
          = "https://wa.me/905551112233?text=" ++ quote (orderText demoProduct)
      ∧ ("https://wa.me/905551112233?text=").data
          <+: (whatsapp_buy_link "905551112233" demoProduct).data
      ∧ utf8Bytes "Ürün: Stand" <:+: unquoteBytes (quote (orderText demoProduct)).data
      ∧ utf8Bytes "Ürün ID: #7" <:+: unquoteBytes (quote (orderText demoProduct)).data := by
  refine ⟨(whatsapp_buy_link_spec " " demoProduct).1 (by decide), ?_, by decide, by decide,
    by decide⟩
  have h := (whatsapp_buy_link_spec "905551112233" demoProduct).2.1 (by decide)
  rw [h]
  decide

/-- Claim C5: editing an existing product with valid (nonblank) required
fields overwrites every mutable field of exactly that row, keeps `id` and
`created_at`, leaves all other rows and the sequence unchanged, and redirects;
a nonexistent id is a no-op on the store with a redirect back. -/
theorem admin_edit_post_frame : ∀ (st : ProductStore) (pid : Int) (f : ProductForm),
    ((∀ p ∈ st.rows, p.id ≠ pid) →
      admin_edit_post_db st pid f = (st, .redirect "/admin/products"))
    ∧ (∀ p : Product,
        (overwriteFields f p).id = p.id
        ∧ (overwriteFields f p).created_at = p.created_at
        ∧ (overwriteFields f p).name = pyStrip (orEmpty f.name)
        ∧ (overwriteFields f p).category = pyStrip (orEmpty f.category)
        ∧ (overwriteFields f p).material = pyStrip (orEmpty f.material)
        ∧ (overwriteFields f p).price = safe_int f.price 0 (some 0) none
        ∧ (overwriteFields f p).stock = safe_int f.stock 0 (some 0) none
        ∧ (overwriteFields f p).lead_time_days = safe_int f.lead_time_days 1 (some 0) none
        ∧ (overwriteFields f p).photo_url = pyStrip (orEmpty f.photo_url)
        ∧ (overwriteFields f p).stl_url = pyStrip (orEmpty f.stl_url))
    ∧ ((∃ p0 ∈ st.rows, p0.id = pid) →
        pyStrip (orEmpty f.name) ≠ "" → pyStrip (orEmpty f.category) ≠ "" →
        pyStrip (orEmpty f.material) ≠ "" →
        (admin_edit_post_db st pid f).1.rows
            = st.rows.map (fun p => if p.id == pid then overwriteFields f p else p)
        ∧ (admin_edit_post_db st pid f).1.seq = st.seq
        ∧ (admin_edit_post_db st pid f).2 = .redirect "/admin/products"
        ∧ ∀ p ∈ st.rows, p.id ≠ pid → p ∈ (admin_edit_post_db st pid f).1.rows) := by
  intro st pid f
  refine ⟨?_, ?_, ?_⟩
  · intro h
    have hn : fetch_product st pid = none := by
      unfold fetch_product
      rw [List.find?_eq_none]
      intro x hx
      simp [h x hx]
    unfold admin_edit_post_db
    rw [hn]
    rfl
  · intro p
    exact ⟨rfl, rfl, rfl, rfl, rfl, rfl, rfl, rfl, rfl, rfl⟩
  · rintro ⟨p0, hmem, hid⟩ h1 h2 h3
    have hs : ¬ (fetch_product st pid).isNone = true := by
      unfold fetch_product
      intro hn
      rw [Option.isNone_iff_eq_none, List.find?_eq_none] at hn
      exact hn p0 hmem (by simp [hid])
    unfold admin_edit_post_db
    rw [if_neg hs, if_pos ⟨h1, h2, h3⟩]
    refine ⟨rfl, rfl, rfl, ?_⟩
    intro p hp hne
    apply List.mem_map.mpr
    exact ⟨p, hp, by simp [hne]⟩

/-- Witness for `admin_edit_post_frame`: editing the one-row store at its own
id rewrites only that row; editing at id 99 is a no-op with a redirect. -/
theorem admin_edit_post_frame_witness :
    ((admin_edit_post_db xyzStore 1 demoForm).1.rows
        = xyzStore.rows.map (fun p => if p.id == 1 then overwriteFields demoForm p else p)
      ∧ (admin_edit_post_db xyzStore 1 demoForm).1.seq = xyzStore.seq
      ∧ (admin_edit_post_db xyzStore 1 demoForm).2 = .redirect "/admin/products"
      ∧ ∀ p ∈ xyzStore.rows, p.id ≠ 1 → p ∈ (admin_edit_post_db xyzStore 1 demoForm).1.rows)
    ∧ admin_edit_post_db xyzStore 99 demoForm = (xyzStore, .redirect "/admin/products") :=
  ⟨(admin_edit_post_frame xyzStore 1 demoForm).2.2 ⟨xyzRow, by decide, by decide⟩
      (by decide) (by decide) (by decide),
   (admin_edit_post_frame xyzStore 99 demoForm).1 (by decide)⟩

/-- Claim C6: the unread count is the number of stored messages whose
`is_read` flag is false; a successful contact submission raises it by exactly
one; marking an existing unread message read lowers it by exactly one (under
distinct ids); marking is idempotent and never raises the count. -/
theorem unread_count_algebra : ∀ (st : MessageStore) (nF eF mF : Option String)
    (now : String) (idF : Option String) (m0 : Message),
    count_unread_messages st = (st.rows.filter (fun m => m.is_read = false)).length
    ∧ (pyStrip (orEmpty nF) ≠ "" → pyStrip (orEmpty eF) ≠ "" → pyStrip (orEmpty mF) ≠ "" →
        count_unread_messages (contact_send st nF eF mF now).1
          = count_unread_messages st + 1)
    ∧ ((st.rows.map Message.id).Nodup → m0 ∈ st.rows →
        m0.id = safe_int idF 0 (some 0) none → m0.is_read = false →
        count_unread_messages (admin_message_read_db st idF) + 1
          = count_unread_messages st)
    ∧ admin_message_read_db (admin_message_read_db st idF) idF
        = admin_message_read_db st idF
    ∧ count_unread_messages (admin_message_read_db st idF) ≤ count_unread_messages st := by
  intro st nF eF mF now idF m0
  refine ⟨?_, ?_, ?_, ?_, ?_⟩
  · unfold count_unread_messages
    congr 1
    apply List.filter_congr
    intro m _
    cases h : m.is_read <;> simp [h]
  · intro h1 h2 h3
    rw [contact_send_ok st nF eF mF now h1 h2 h3]
    unfold count_unread_messages
    simp
  · intro hnd hmem hid hunread
    unfold admin_message_read_db count_unread_messages
    exact unread_filter_dec (safe_int idF 0 (some 0) none) st.rows m0 hnd hmem hid hunread
  · unfold admin_message_read_db
    simp only [List.map_map]
    congr 1
    apply List.map_congr_left
    intro m _
    exact markRead_pointwise_idem (safe_int idF 0 (some 0) none) m
  · unfold admin_message_read_db count_unread_messages
    exact markRead_filter_le (safe_int idF 0 (some 0) none) st.rows

/-- Witness for `unread_count_algebra` on a one-message store: a contact
submission raises the count to 2, marking message 1 read lowers it back. -/
theorem unread_count_algebra_witness :
    count_unread_messages
        (contact_send demoMsgStore (some "Ayşe") (some "a@b.c") (some "selam") "t1").1
      = count_unread_messages demoMsgStore + 1
    ∧ count_unread_messages (admin_message_read_db demoMsgStore (some "1")) + 1
        = count_unread_messages demoMsgStore :=
  ⟨(unread_count_algebra demoMsgStore (some "Ayşe") (some "a@b.c") (some "selam") "t1"
      (some "1") demoMsg).2.1 (by decide) (by decide) (by decide),
   (unread_count_algebra demoMsgStore (some "Ayşe") (some "a@b.c") (some "selam") "t1"
      (some "1") demoMsg).2.2.1 (by decide) (by decide) (by decide) (by decide)⟩

/-- Claim C9: listing with all-empty filters equals listing with the Python
default (absent) arguments; deleting a form id removes it so a subsequent
lookup is absent; deletion is idempotent; and deleting an id that matches no
row leaves the store unchanged. -/
theorem filters_identity_delete_idem : ∀ (st : ProductStore) (idF : Option String),
    fetch_products st "" "" "" = fetch_products_noargs st
    ∧ fetch_product (admin_delete_db st idF) (safe_int idF 0 (some 0) none) = none
    ∧ admin_delete_db (admin_delete_db st idF) idF = admin_delete_db st idF
    ∧ ((∀ p ∈ st.rows, p.id ≠ safe_int idF 0 (some 0) none) →
        admin_delete_db st idF = st) := by
  intro st idF
  refine ⟨rfl, ?_, ?_, ?_⟩
  · unfold admin_delete_db fetch_product
    rw [List.find?_eq_none]
    intro x hx
    rw [List.mem_filter] at hx
    simpa using hx.2
  · unfold admin_delete_db
    simp only [List.filter_filter]
    congr 1
    apply List.filter_congr
    intro p _
    simp [Bool.and_self]
  · intro h
    unfold admin_delete_db
    rw [List.filter_eq_self.mpr (fun a ha => by simp [h a ha])]

/-- Witness for `filters_identity_delete_idem`: deleting the absent id 99
leaves the one-row store untouched. -/
theorem filters_identity_delete_idem_witness :
    admin_delete_db xyzStore (some "99") = xyzStore :=
  (filters_identity_delete_idem xyzStore (some "99")).2.2.2 (by decide)

/-- Claim C10: a missing or non-integer form id coerces to 0 under
`safe_int(·, 0, 0)`; since stored ids are at least 1, the delete and mark-read
operations then match no row and leave both stores unchanged. -/
theorem bad_id_coerces_noop : ∀ (pst : ProductStore) (mst : MessageStore)
    (idF : Option String),
    pyParseInt (pyStrip (pyStr idF)) = none →
    safe_int idF 0 (some 0) none = 0
    ∧ ((∀ p ∈ pst.rows, 1 ≤ p.id) → admin_delete_db pst idF = pst)
    ∧ ((∀ m ∈ mst.rows, 1 ≤ m.id) →
        admin_message_read_db mst idF = mst ∧ admin_message_delete_db mst idF = mst) := by
  intro pst mst idF h
  have hz : safe_int idF 0 (some 0) none = 0 := by
    unfold safe_int
    rw [h]
    rfl
  refine ⟨hz, ?_, ?_⟩
  · intro hids
    unfold admin_delete_db
    rw [hz, List.filter_eq_self.mpr (fun a ha => by
      have := hids a ha
      simp only [Bool.not_eq_eq_eq_not, Bool.not_true, beq_eq_false_iff_ne]
      omega)]
  · intro hids
    constructor
    · unfold admin_message_read_db
      rw [hz, map_markRead_id 0 mst.rows (fun m hm => by
        have := hids m hm
        omega)]
    · unfold admin_message_delete_db
      rw [hz, List.filter_eq_self.mpr (fun m hm => by
        have := hids m hm
        simp only [Bool.not_eq_eq_eq_not, Bool.not_true, beq_eq_false_iff_ne]
        omega)]

/-- Witness for `bad_id_coerces_noop`: a missing id field (`None`, whose
string form does not parse) coerces to 0 and changes nothing. -/
theorem bad_id_coerces_noop_witness :
    safe_int none 0 (some 0) none = 0
    ∧ admin_delete_db xyzStore none = xyzStore
    ∧ admin_message_read_db demoMsgStore none = demoMsgStore
    ∧ admin_message_delete_db demoMsgStore none = demoMsgStore :=
  ⟨(bad_id_coerces_noop xyzStore demoMsgStore none (by decide)).1,
   (bad_id_coerces_noop xyzStore demoMsgStore none (by decide)).2.1 (by decide),
   ((bad_id_coerces_noop xyzStore demoMsgStore none (by decide)).2.2 (by decide)).1,
   ((bad_id_coerces_noop xyzStore demoMsgStore none (by decide)).2.2 (by decide)).2⟩
